import Mathlib

/-!
Verification of the augmentation recipe catalog
(`Data_Generation/TextAttack/textattack/augmentation/recipes.py`).

The file under verification is configuration glue: every recipe class wires a
transformation together with a constraint list and hands both, plus the shared
parameters `pct_words_to_swap` and `transformations_per_example`, to the
external `Augmenter` base class.  The embedding below models each recipe
constructor faithfully from the source; the external collaborators (the
`Augmenter` base class, the transformation implementations, the constraint
implementations and Python's process-wide `random` module) are not part of the
source tree, so they are modelled from the specification's stated contracts,
each marked by a doc comment beginning `Modelled from the spec:`.
-/

/-- Texts are modelled as plain strings, matching the `augment(text) → list[text]`
interface of the external Augmenter. -/
abbrev Text := String

/-- The state of the process-wide pseudo-random source (Python's `random`
module, imported at line 8 of the source).  Its internal structure is opaque
to the recipe file; all that matters is that it is explicit, threaded state. -/
abbrev RngState := Nat

/-- Atomic transformation classes constructed by the recipe file, each carrying
exactly the keyword arguments the recipe file passes at its call site; `none`
means the recipe relies on the external class's default. -/
inductive AtomicTransformation where
  | wordSwapWordNet
  | wordDeletion
  | wordInnerSwapRandom
  | wordInsertionRandomSynonym
  | wordSwapEmbedding (maxCandidates : Nat)
  | wordSwapHomoglyphSwap
  | wordSwapNeighboringCharacterSwap (randomOne skipFirstChar skipLastChar : Option Bool)
  | wordSwapRandomCharacterSubstitution
  | wordSwapRandomCharacterDeletion (randomOne skipFirstChar skipLastChar : Option Bool)
  | wordSwapRandomCharacterInsertion (randomOne : Option Bool)
      (lettersToInsert : Option String) (skipFirstChar skipLastChar : Option Bool)
  | wordSwapQWERTY (randomOne skipFirstChar skipLastChar : Option Bool)
  | wordSwapChangeNumber
  | wordSwapChangeLocation
  | wordSwapChangeName
  | wordSwapExtend
  | wordSwapContract
  | wordSwapMaskedLM (method : String) (modelName : String) (maxCandidates : Nat)
      (minConfidence : ℚ)
  | wordInsertionMaskedLM (modelName : String) (maxCandidates : Nat) (minConfidence : ℚ)
  | wordMergeMaskedLM (modelName : String) (maxCandidates : Nat) (minConfidence : ℚ)
  | backTranslation (chainedBackTranslation : Nat)
  deriving DecidableEq, Repr

/-- A transformation handed to the external Augmenter is either a single
atomic transformation or a `CompositeTransformation` over a list of atomic
children (in this file every composite's children are atomic). -/
inductive TransformationTag where
  | atomic (t : AtomicTransformation)
  | composite (children : List AtomicTransformation)
  deriving DecidableEq, Repr

/-- Constraint classes constructed by the recipe file, with the keyword
arguments passed at the call sites; `none` for a stopword set means the
external class's default stopword list is used. -/
inductive ConstraintTag where
  | repeatModification
  | stopwordModification (customStopwords : Option (List String))
  | minWordLength (minLength : Nat)
  | maxWordsPerturbed (maxNumWords : Nat)
  | wordEmbeddingDistance (minCosSim : ℚ)
  | partOfSpeech (allowVerbNounSwap : Bool)
  | inputColumnModification (matchingColumnLabels : List String)
      (columnsToIgnore : List String)
  | universalSentenceEncoder (threshold : ℚ) (metric : Option String)
      (compareAgainstOriginal : Option Bool) (windowSize : Option Nat)
      (skipTextShorterThanWindow : Option Bool)
  | levenshteinEditDistance (maxEditDistance : Nat)
  deriving DecidableEq, Repr

/-- Source line 18: `DEFAULT_CONSTRAINTS = [RepeatModification(), StopwordModification()]`. -/
def DEFAULT_CONSTRAINTS : List ConstraintTag :=
  [ConstraintTag.repeatModification, ConstraintTag.stopwordModification none]

/-- The configuration an ordinary recipe hands to the external Augmenter base
class: one transformation, an ordered constraint list, and the two shared
numeric parameters. -/
structure AugmenterConfig where
  transformation : TransformationTag
  constraints : List ConstraintTag
  pct_words_to_swap : ℚ
  transformations_per_example : ℤ
  deriving DecidableEq, Repr

namespace Augmenter

/-- Modelled from the spec: the external Augmenter constructor
`(transformation, constraints, pct_words_to_swap, transformations_per_example)`
validates at construction time that the fraction of words to swap lies in
[0,1] and that the output count is positive, rejecting the configuration
otherwise (spec sections 6 and 7).  `none` models a rejected construction. -/
def init (transformation : TransformationTag) (constraints : List ConstraintTag)
    (pct_words_to_swap : ℚ) (transformations_per_example : ℤ) : Option AugmenterConfig :=
  if 0 ≤ pct_words_to_swap ∧ pct_words_to_swap ≤ 1 then
    if 0 < transformations_per_example then
      some ⟨transformation, constraints, pct_words_to_swap, transformations_per_example⟩
    else none
  else none

theorem init_eq_some (t : TransformationTag) (cs : List ConstraintTag) (pct : ℚ) (tpe : ℤ)
    (h1 : 0 ≤ pct ∧ pct ≤ 1) (h2 : 0 < tpe) :
    init t cs pct tpe = some ⟨t, cs, pct, tpe⟩ := by
  unfold init
  rw [if_pos h1, if_pos h2]

theorem init_isSome_iff (t : TransformationTag) (cs : List ConstraintTag) (pct : ℚ) (tpe : ℤ) :
    (init t cs pct tpe).isSome = true ↔ ((0 ≤ pct ∧ pct ≤ 1) ∧ 0 < tpe) := by
  unfold init
  split_ifs with h1 h2
  · simp [h1, h2]
  · simp [h1, h2]
  · simp [h1]

theorem init_inv (t : TransformationTag) (cs : List ConstraintTag) (pct : ℚ) (tpe : ℤ)
    (cfg : AugmenterConfig) (h : init t cs pct tpe = some cfg) :
    (0 ≤ pct ∧ pct ≤ 1) ∧ 0 < tpe ∧ cfg = ⟨t, cs, pct, tpe⟩ := by
  unfold init at h
  split_ifs at h with h1 h2
  exact ⟨h1, h2, (Option.some_injective _ h).symm⟩

end Augmenter

/-! ### The recipe catalog

One pair of definitions per recipe class: the transformation it constructs
and the constraint list it passes to the external Augmenter, read directly
off the class's `__init__`, plus an `init` that delegates to the base-class
constructor exactly as `super().__init__` does in the source. -/

/-- Source lines 78-83: `WordInnerSwapRandom()` with `DEFAULT_CONSTRAINTS`. -/
def SwapAugmenter.transformationUsed : TransformationTag :=
  .atomic .wordInnerSwapRandom

def SwapAugmenter.constraintsUsed : List ConstraintTag := DEFAULT_CONSTRAINTS

def SwapAugmenter.init (pct : ℚ) (tpe : ℤ) : Option AugmenterConfig :=
  Augmenter.init SwapAugmenter.transformationUsed SwapAugmenter.constraintsUsed pct tpe

/-- Source lines 86-91: `WordInsertionRandomSynonym()` with `DEFAULT_CONSTRAINTS`. -/
def SynonymInsertionAugmenter.transformationUsed : TransformationTag :=
  .atomic .wordInsertionRandomSynonym

def SynonymInsertionAugmenter.constraintsUsed : List ConstraintTag := DEFAULT_CONSTRAINTS

def SynonymInsertionAugmenter.init (pct : ℚ) (tpe : ℤ) : Option AugmenterConfig :=
  Augmenter.init SynonymInsertionAugmenter.transformationUsed
    SynonymInsertionAugmenter.constraintsUsed pct tpe

/-- Source lines 94-101: `WordSwapWordNet()` with `DEFAULT_CONSTRAINTS`. -/
def WordNetAugmenter.transformationUsed : TransformationTag :=
  .atomic .wordSwapWordNet

def WordNetAugmenter.constraintsUsed : List ConstraintTag := DEFAULT_CONSTRAINTS

def WordNetAugmenter.init (pct : ℚ) (tpe : ℤ) : Option AugmenterConfig :=
  Augmenter.init WordNetAugmenter.transformationUsed WordNetAugmenter.constraintsUsed pct tpe

/-- Source lines 104-109: `WordDeletion()` with `DEFAULT_CONSTRAINTS`. -/
def DeletionAugmenter.transformationUsed : TransformationTag :=
  .atomic .wordDeletion

def DeletionAugmenter.constraintsUsed : List ConstraintTag := DEFAULT_CONSTRAINTS

def DeletionAugmenter.init (pct : ℚ) (tpe : ℤ) : Option AugmenterConfig :=
  Augmenter.init DeletionAugmenter.transformationUsed DeletionAugmenter.constraintsUsed pct tpe

/-- Source lines 112-122: `WordSwapEmbedding(max_candidates=50)` with
`DEFAULT_CONSTRAINTS + [WordEmbeddingDistance(min_cos_sim=0.8)]`. -/
def EmbeddingAugmenter.transformationUsed : TransformationTag :=
  .atomic (.wordSwapEmbedding 50)

def EmbeddingAugmenter.constraintsUsed : List ConstraintTag :=
  DEFAULT_CONSTRAINTS ++ [ConstraintTag.wordEmbeddingDistance (8/10)]

def EmbeddingAugmenter.init (pct : ℚ) (tpe : ℤ) : Option AugmenterConfig :=
  Augmenter.init EmbeddingAugmenter.transformationUsed EmbeddingAugmenter.constraintsUsed pct tpe

/-- Source lines 125-149: a `CompositeTransformation` of the four character
edits, with `DEFAULT_CONSTRAINTS`. -/
def CharSwapAugmenter.transformationUsed : TransformationTag :=
  .composite
    [.wordSwapNeighboringCharacterSwap none none none,
     .wordSwapRandomCharacterSubstitution,
     .wordSwapRandomCharacterDeletion none none none,
     .wordSwapRandomCharacterInsertion none none none none]

def CharSwapAugmenter.constraintsUsed : List ConstraintTag := DEFAULT_CONSTRAINTS

def CharSwapAugmenter.init (pct : ℚ) (tpe : ℤ) : Option AugmenterConfig :=
  Augmenter.init CharSwapAugmenter.transformationUsed CharSwapAugmenter.constraintsUsed pct tpe

/-- Source lines 152-187: CheckList composite transformation, and — line 185 —
`constraints = [DEFAULT_CONSTRAINTS[0]]`: only the first default constraint. -/
def CheckListAugmenter.transformationUsed : TransformationTag :=
  .composite
    [.wordSwapChangeNumber,
     .wordSwapChangeLocation,
     .wordSwapChangeName,
     .wordSwapExtend,
     .wordSwapContract]

def CheckListAugmenter.constraintsUsed : List ConstraintTag :=
  [DEFAULT_CONSTRAINTS.get ⟨0, by decide⟩]

def CheckListAugmenter.init (pct : ℚ) (tpe : ℤ) : Option AugmenterConfig :=
  Augmenter.init CheckListAugmenter.transformationUsed CheckListAugmenter.constraintsUsed pct tpe

/-- Source lines 218-250: the CLARE composite of the three masked-LM
transformations sharing one model, and `DEFAULT_CONSTRAINTS` plus a
`UniversalSentenceEncoder` constraint. -/
def CLAREAugmenter.transformationUsed (model : String) : TransformationTag :=
  .composite
    [.wordSwapMaskedLM "bae" model 50 (5/10000),
     .wordInsertionMaskedLM model 50 0,
     .wordMergeMaskedLM model 50 (5/1000)]

def CLAREAugmenter.constraintsUsed : List ConstraintTag :=
  DEFAULT_CONSTRAINTS ++
    [ConstraintTag.universalSentenceEncoder (7/10) (some "cosine") (some true)
      (some 15) (some true)]

/-- Source lines 255-313: the Pruthi composite of typo-style character edits,
with the explicit constraint list of lines 306-311. -/
def PruthiAugmenter.transformationUsed : TransformationTag :=
  .composite
    [.wordSwapNeighboringCharacterSwap (some false) (some true) (some true),
     .wordSwapRandomCharacterDeletion (some false) (some true) (some true),
     .wordSwapRandomCharacterInsertion (some false) none (some true) (some true),
     .wordSwapQWERTY (some false) (some true) (some true)]

def PruthiAugmenter.constraintsUsed (maxNumWordSwaps : Nat) : List ConstraintTag :=
  [ConstraintTag.minWordLength 4,
   ConstraintTag.stopwordModification none,
   ConstraintTag.maxWordsPerturbed maxNumWordSwaps,
   ConstraintTag.repeatModification]

def PruthiAugmenter.init (maxNumWordSwaps : Nat) (pct : ℚ) (tpe : ℤ) : Option AugmenterConfig :=
  Augmenter.init PruthiAugmenter.transformationUsed
    (PruthiAugmenter.constraintsUsed maxNumWordSwaps) pct tpe

/-- Source lines 316-374: the TextBugger composite, with `DEFAULT_CONSTRAINTS`
plus `UniversalSentenceEncoder(threshold=0.8)` (all other parameters left to
the external class's defaults). -/
def TextBuggerAugmenter.transformationUsed : TransformationTag :=
  .composite
    [.wordSwapRandomCharacterInsertion (some true) (some " ") (some true) (some true),
     .wordSwapRandomCharacterDeletion (some true) (some true) (some true),
     .wordSwapNeighboringCharacterSwap (some true) (some true) (some true),
     .wordSwapHomoglyphSwap,
     .wordSwapEmbedding 5]

def TextBuggerAugmenter.constraintsUsed : List ConstraintTag :=
  DEFAULT_CONSTRAINTS ++
    [ConstraintTag.universalSentenceEncoder (8/10) none none none none]

def TextBuggerAugmenter.init (pct : ℚ) (tpe : ℤ) : Option AugmenterConfig :=
  Augmenter.init TextBuggerAugmenter.transformationUsed
    TextBuggerAugmenter.constraintsUsed pct tpe

/-- Source lines 407-432: the stopword set of the TextFooler public
implementation, passed to `StopwordModification(stopwords=...)`. -/
def textFoolerStopwords : List String :=
  ["a", "about", "above", "across", "after", "afterwards", "again", "against", "ain", "all", 
   "almost", "alone", "along", "already", "also", "although", "am", "among", "amongst", "an", 
   "and", "another", "any", "anyhow", "anyone", "anything", "anyway", "anywhere", "are", 
   "aren", "aren\x27t", "around", "as", "at", "back", "been", "before", "beforehand", 
   "behind", "being", "below", "beside", "besides", "between", "beyond", "both", "but", "by", 
   "can", "cannot", "could", "couldn", "couldn\x27t", "d", "didn", "didn\x27t", "doesn", 
   "doesn\x27t", "don", "don\x27t", "down", "due", "during", "either", "else", "elsewhere", 
   "empty", "enough", "even", "ever", "everyone", "everything", "everywhere", "except", 
   "first", "for", "former", "formerly", "from", "hadn", "hadn\x27t", "hasn", "hasn\x27t", 
   "haven", "haven\x27t", "he", "hence", "her", "here", "hereafter", "hereby", "herein", 
   "hereupon", "hers", "herself", "him", "himself", "his", "how", "however", "hundred", "i", 
   "if", "in", "indeed", "into", "is", "isn", "isn\x27t", "it", "it\x27s", "its", "itself", 
   "just", "latter", "latterly", "least", "ll", "may", "me", "meanwhile", "mightn", 
   "mightn\x27t", "mine", "more", "moreover", "most", "mostly", "must", "mustn", "mustn\x27t", 
   "my", "myself", "namely", "needn", "needn\x27t", "neither", "never", "nevertheless", 
   "next", "no", "nobody", "none", "noone", "nor", "not", "nothing", "now", "nowhere", "o", 
   "of", "off", "on", "once", "one", "only", "onto", "or", "other", "others", "otherwise", 
   "our", "ours", "ourselves", "out", "over", "per", "please", "s", "same", "shan", 
   "shan\x27t", "she", "she\x27s", "should\x27ve", "shouldn", "shouldn\x27t", "somehow", 
   "something", "sometime", "somewhere", "such", "t", "than", "that", "that\x27ll", "the", 
   "their", "theirs", "them", "themselves", "then", "thence", "there", "thereafter", 
   "thereby", "therefore", "therein", "thereupon", "these", "they", "this", "those", 
   "through", "throughout", "thru", "thus", "to", "too", "toward", "towards", "under", 
   "unless", "until", "up", "upon", "used", "ve", "was", "wasn", "wasn\x27t", "we", "were", 
   "weren", "weren\x27t", "what", "whatever", "when", "whence", "whenever", "where", 
   "whereafter", "whereas", "whereby", "wherein", "whereupon", "wherever", "whether", "which", 
   "while", "whither", "who", "whoever", "whole", "whom", "whose", "why", "with", "within", 
   "without", "won", "won\x27t", "would", "wouldn", "wouldn\x27t", "y", "yet", "you", 
   "you\x27d", "you\x27ll", "you\x27re", "you\x27ve", "your", "yours", "yourself", 
   "yourselves"]
/-- Source lines 377-451: `WordSwapEmbedding(max_candidates=50)` with the
six-element constraint list of line 449. -/
def TextFoolerAugmenter.transformationUsed : TransformationTag :=
  .atomic (.wordSwapEmbedding 50)

def TextFoolerAugmenter.constraintsUsed : List ConstraintTag :=
  [ConstraintTag.repeatModification,
   ConstraintTag.stopwordModification (some textFoolerStopwords),
   ConstraintTag.inputColumnModification ["premise", "hypothesis"] ["premise"],
   ConstraintTag.wordEmbeddingDistance (5/10),
   ConstraintTag.partOfSpeech true,
   ConstraintTag.universalSentenceEncoder (840845057/1000000000) (some "angular")
     (some false) (some 15) (some true)]

def TextFoolerAugmenter.init (pct : ℚ) (tpe : ℤ) : Option AugmenterConfig :=
  Augmenter.init TextFoolerAugmenter.transformationUsed
    TextFoolerAugmenter.constraintsUsed pct tpe

/-- Source lines 454-503: the DeepWordBug transformation — the composite of
four character edits when `use_all_transformations` holds, a single random
substitution otherwise. -/
def DeepWordBugAugmenter.transformationUsed (useAllTransformations : Bool) : TransformationTag :=
  if useAllTransformations then
    .composite
      [.wordSwapNeighboringCharacterSwap none none none,
       .wordSwapRandomCharacterSubstitution,
       .wordSwapRandomCharacterDeletion none none none,
       .wordSwapRandomCharacterInsertion none none none none]
  else
    .atomic .wordSwapRandomCharacterSubstitution

/-- Source line 501: `[RepeatModification(), StopwordModification()] +
[LevenshteinEditDistance(30)]`. -/
def DeepWordBugAugmenter.constraintsUsed : List ConstraintTag :=
  [ConstraintTag.repeatModification, ConstraintTag.stopwordModification none] ++
    [ConstraintTag.levenshteinEditDistance 30]

def DeepWordBugAugmenter.init (useAllTransformations : Bool) (pct : ℚ) (tpe : ℤ) :
    Option AugmenterConfig :=
  Augmenter.init (DeepWordBugAugmenter.transformationUsed useAllTransformations)
    DeepWordBugAugmenter.constraintsUsed pct tpe

/-- Source lines 506-516: `BackTranslation(chained_back_translation=5)` and —
line 516 — `super().__init__(transformation, **kwargs)`: no constraints
argument is passed, so the external Augmenter's default empty constraint
list applies (spec section 6 gives the base constructor signature; an omitted
constraint list means an empty chain). -/
def BackTranslationAugmenter.transformationUsed : TransformationTag :=
  .atomic (.backTranslation 5)

def BackTranslationAugmenter.constraintsUsed : List ConstraintTag := []

def BackTranslationAugmenter.init (pct : ℚ) (tpe : ℤ) : Option AugmenterConfig :=
  Augmenter.init BackTranslationAugmenter.transformationUsed
    BackTranslationAugmenter.constraintsUsed pct tpe

/-! ### The aggregate Easy Data Augmentation recipe -/

/-- The state `EasyDataAugmenter.__init__` builds (source lines 39-62): the two
validated shared parameters and the four sub-recipe augmenters it constructs.
Its `__init__` never calls `super().__init__`, so there is no base-class
configuration of its own. -/
structure EasyConfig where
  pct_words_to_swap : ℚ
  transformations_per_example : ℤ
  synonym_replacement : AugmenterConfig
  random_deletion : AugmenterConfig
  random_swap : AugmenterConfig
  random_insertion : AugmenterConfig
  deriving DecidableEq, Repr

/-- Source lines 39-62: `EasyDataAugmenter.__init__`.  The two asserts of
lines 40-43 are the construction-time validation; `n_aug_each` is
`max(transformations_per_example // 4, 1)` (Python floor division, `Int.fdiv`);
the four sub-recipes are then constructed with the shared
`pct_words_to_swap` and `n_aug_each` outputs each. -/
def EasyDataAugmenter.init (pct_words_to_swap : ℚ) (transformations_per_example : ℤ) :
    Option EasyConfig :=
  if 0 ≤ pct_words_to_swap ∧ pct_words_to_swap ≤ 1 then
    if 0 < transformations_per_example then
      let n_aug_each : ℤ := max (Int.fdiv transformations_per_example 4) 1
      match WordNetAugmenter.init pct_words_to_swap n_aug_each,
            DeletionAugmenter.init pct_words_to_swap n_aug_each,
            SwapAugmenter.init pct_words_to_swap n_aug_each,
            SynonymInsertionAugmenter.init pct_words_to_swap n_aug_each with
      | some sr, some rd, some rs, some ri =>
          some ⟨pct_words_to_swap, transformations_per_example, sr, rd, rs, ri⟩
      | _, _, _, _ => none
    else none
  else none

/-- Modelled from Python `list(set(xs))` at source line 70: deduplication of
the collected sub-recipe outputs.  CPython's set iteration order is
environment-determined but fixed within a process; it is modelled here as the
canonical `List.dedup` order (the claims touching it concern only membership,
duplicate-freeness and length). -/
def pySetList (l : List Text) : List Text := l.dedup

/-- Source lines 64-72: `EasyDataAugmenter.augment`.  The behavior of the four
sub-recipes' `augment` is external (the Augmenter base class is outside this
file), so it is a function argument `subAugment`, as is the process-wide
`random.shuffle`; both consume and return the explicit random-source state.
The body mirrors the source: collect the four sub-recipes' outputs in order,
`list(set(...))`, `random.shuffle`, then truncate to
`transformations_per_example`. -/
def EasyDataAugmenter.augment
    (subAugment : AugmenterConfig → RngState → Text → List Text × RngState)
    (shuffle : List Text → RngState → List Text × RngState)
    (cfg : EasyConfig) (rng : RngState) (text : Text) : List Text × RngState :=
  let p1 := subAugment cfg.synonym_replacement rng text
  let p2 := subAugment cfg.random_deletion p1.2 text
  let p3 := subAugment cfg.random_swap p2.2 text
  let p4 := subAugment cfg.random_insertion p3.2 text
  let augmented_text := pySetList (p1.1 ++ p2.1 ++ p3.1 ++ p4.1)
  let sh := shuffle augmented_text p4.2
  (sh.1.take cfg.transformations_per_example.toNat, sh.2)

/-- Runs a list of sub-recipe augmenters in order, threading the random-source
state and concatenating their outputs.  Helper for the spec-side phrasing of
the aggregate recipe. -/
def runSubRecipes (subAugment : AugmenterConfig → RngState → Text → List Text × RngState)
    (text : Text) : List AugmenterConfig → RngState → List Text × RngState
  | [], rng => ([], rng)
  | c :: cs, rng =>
      let p := subAugment c rng text
      let q := runSubRecipes subAugment text cs p.2
      (p.1 ++ q.1, q.2)

/-- The aggregate recipe exactly as the spec words it (spec section 4.3):
take the union of the four sub-recipes' outputs, deduplicate, shuffle with the
process-wide random source, and truncate to the requested output count.  This
definition follows the spec's sentence; the theorem for claim C4 compares it
with `EasyDataAugmenter.augment`, which follows the source. -/
def easyAugmentAsSpecified
    (subAugment : AugmenterConfig → RngState → Text → List Text × RngState)
    (shuffle : List Text → RngState → List Text × RngState)
    (cfg : EasyConfig) (rng : RngState) (text : Text) : List Text × RngState :=
  let subs := [cfg.synonym_replacement, cfg.random_deletion,
               cfg.random_swap, cfg.random_insertion]
  let union := runSubRecipes subAugment text subs rng
  let sh := shuffle union.1.dedup union.2
  (sh.1.take cfg.transformations_per_example.toNat, sh.2)

/-! ### The external Augmenter's augment, candidate filtering, and the
Levenshtein ceiling -/

/-- One cons step of the Levenshtein recursion: given the distance function
`f ys = dist xs ys` for a fixed first word `xs`, computes
`dist (x :: xs) ys` by structural recursion on `ys`. -/
def levCons (x : Char) (f : List Char → Nat) : List Char → Nat
  | [] => f [] + 1
  | y :: ys =>
      if x = y then f ys
      else 1 + min (f ys) (min (levCons x f ys) (f (y :: ys)))

/-- Character-level Levenshtein edit distance (unit costs), the acceptance
measure of the external `LevenshteinEditDistance` constraint consumed at
source line 499: `levCons` supplies the usual substitution, insertion and
deletion cases of the textbook recurrence. -/
def levenshteinDist : List Char → List Char → Nat
  | [], ys => ys.length
  | x :: xs, ys => levCons x (levenshteinDist xs) ys

/-- Modelled from the spec: the per-candidate acceptance rule of a single
constraint (spec section 4.2).  Pre-transformation constraints (repeat
modification, stopword exclusion, minimum word length, input-column
restriction) narrow the eligible indices before candidates are generated and
therefore accept every already-generated candidate at this stage; the
edit-distance ceiling is computed concretely; the remaining post-transformation
constraints (embedding distance, part-of-speech agreement, sentence-encoder
similarity, perturbation budget) depend on external models and are given by
the `oracle` argument. -/
def postCheck (oracle : ConstraintTag → Text → Text → Bool) :
    ConstraintTag → Text → Text → Bool
  | ConstraintTag.levenshteinEditDistance bound, original, candidate =>
      decide (levenshteinDist original.data candidate.data ≤ bound)
  | ConstraintTag.repeatModification, _, _ => true
  | ConstraintTag.stopwordModification _, _, _ => true
  | ConstraintTag.minWordLength _, _, _ => true
  | ConstraintTag.inputColumnModification _ _, _, _ => true
  | k, original, candidate => oracle k original candidate

/-- Modelled from the spec: the constraint chain's acceptance decision — the
candidate must pass every constraint in the list, evaluated in order with
short-circuiting (spec sections 3 and 4.2). -/
def checkConstraints (oracle : ConstraintTag → Text → Text → Bool)
    (constraints : List ConstraintTag) (original candidate : Text) : Bool :=
  constraints.all fun k => postCheck oracle k original candidate

/-- Modelled from the spec: the external Augmenter's `augment` — apply the
configured transformation (with pre-transformation index narrowing absorbed
into the `transform` argument), keep only the candidates accepted by the whole
constraint chain, deduplicate, and return at most the configured number of
outputs (spec sections 2 and 6). -/
def Augmenter.augmentFiltered (oracle : ConstraintTag → Text → Text → Bool)
    (transform : Text → List Text) (cfg : AugmenterConfig) (text : Text) : List Text :=
  (((transform text).filter fun candidate =>
      checkConstraints oracle cfg.constraints text candidate).dedup).take
    cfg.transformations_per_example.toNat

/-! ### Resource loading at CLARE construction -/

/-- Modelled from the spec: loading a pretrained resource
(`transformers.AutoModelForCausalLM.from_pretrained` /
`AutoTokenizer.from_pretrained`) succeeds exactly when the named resource is
available in the environment, and otherwise raises a resource-unavailable
error that is propagated without retry or degradation (spec section 7).  The
environment is the `available` predicate. -/
def loadPretrained (available : String → Bool) (name : String) : Except String Unit :=
  if available name then Except.ok ()
  else Except.error ("resource unavailable: " ++ name)

/-- Source lines 203-252: `CLAREAugmenter.__init__`.  It calls
`from_pretrained` on the model and the tokenizer names inside the constructor
(lines 215-216), before building the composite transformation and the
constraint list and delegating to the base class — so resource loading happens
at construction time, not at the first `augment` call. -/
def CLAREAugmenter.init (available : String → Bool) (model tok : String)
    (pct : ℚ) (tpe : ℤ) : Except String AugmenterConfig :=
  match loadPretrained available model with
  | Except.error e => Except.error e
  | Except.ok _ =>
    match loadPretrained available tok with
    | Except.error e => Except.error e
    | Except.ok _ =>
      match Augmenter.init (CLAREAugmenter.transformationUsed model)
          CLAREAugmenter.constraintsUsed pct tpe with
      | some cfg => Except.ok cfg
      | none => Except.error "invalid configuration"

/-! ### Resources consumed lazily, at the first augment call -/

/-- Modelled from the spec: the external resource a transformation consumes
at use time — WordNet data for the synonym-based transformations and the word
embedding table for embedding-based swaps (spec sections 1, 2 and 7).  The
masked-language-model transformations receive an already-loaded model from the
constructor that built them (see `CLAREAugmenter.init`) and are outside this
map, as is the back-translation model, whose loading site is not settled by
the file under verification. -/
def AtomicTransformation.resourcesNeeded : AtomicTransformation → List String
  | AtomicTransformation.wordSwapWordNet => ["wordnet"]
  | AtomicTransformation.wordInsertionRandomSynonym => ["wordnet"]
  | AtomicTransformation.wordSwapEmbedding _ => ["embedding-table"]
  | _ => []

/-- The resources needed by a transformation: the union over a composite's
children. -/
def TransformationTag.resourcesNeeded : TransformationTag → List String
  | TransformationTag.atomic t => t.resourcesNeeded
  | TransformationTag.composite children =>
      (children.map AtomicTransformation.resourcesNeeded).flatten

/-- Modelled from the spec: the external Augmenter's augment when the
configured transformation consumes external resources — a missing resource
fails at first use with a resource-unavailable error surfaced to the caller,
without retry or degradation; with every needed resource available the call
returns the filtered candidate list (spec section 7). -/
def Augmenter.augmentWithResources (available : String → Bool)
    (oracle : ConstraintTag → Text → Text → Bool) (transform : Text → List Text)
    (cfg : AugmenterConfig) (text : Text) : Except String (List Text) :=
  match cfg.transformation.resourcesNeeded.find? (fun r => !(available r)) with
  | some r => Except.error ("resource unavailable: " ++ r)
  | none => Except.ok (Augmenter.augmentFiltered oracle transform cfg text)

/-! ### Helper lemmas about the Easy recipe's construction -/

theorem easy_n_aug_each_pos (tpe : ℤ) : 0 < max (Int.fdiv tpe 4) 1 :=
  lt_of_lt_of_le Int.one_pos (le_max_right _ _)

theorem easyInit_eq_some (pct : ℚ) (tpe : ℤ)
    (h1 : 0 ≤ pct ∧ pct ≤ 1) (h2 : 0 < tpe) :
    EasyDataAugmenter.init pct tpe =
      some ⟨pct, tpe,
        ⟨WordNetAugmenter.transformationUsed, DEFAULT_CONSTRAINTS, pct,
          max (Int.fdiv tpe 4) 1⟩,
        ⟨DeletionAugmenter.transformationUsed, DEFAULT_CONSTRAINTS, pct,
          max (Int.fdiv tpe 4) 1⟩,
        ⟨SwapAugmenter.transformationUsed, DEFAULT_CONSTRAINTS, pct,
          max (Int.fdiv tpe 4) 1⟩,
        ⟨SynonymInsertionAugmenter.transformationUsed, DEFAULT_CONSTRAINTS, pct,
          max (Int.fdiv tpe 4) 1⟩⟩ := by
  unfold EasyDataAugmenter.init
  rw [if_pos h1, if_pos h2]
  simp only [WordNetAugmenter.init, DeletionAugmenter.init, SwapAugmenter.init,
    SynonymInsertionAugmenter.init, WordNetAugmenter.constraintsUsed,
    DeletionAugmenter.constraintsUsed, SwapAugmenter.constraintsUsed,
    SynonymInsertionAugmenter.constraintsUsed,
    Augmenter.init_eq_some _ _ _ _ h1 (easy_n_aug_each_pos tpe)]

theorem easyInit_inv (pct : ℚ) (tpe : ℤ) (cfg : EasyConfig)
    (h : EasyDataAugmenter.init pct tpe = some cfg) :
    (0 ≤ pct ∧ pct ≤ 1) ∧ 0 < tpe ∧ cfg =
      ⟨pct, tpe,
        ⟨WordNetAugmenter.transformationUsed, DEFAULT_CONSTRAINTS, pct,
          max (Int.fdiv tpe 4) 1⟩,
        ⟨DeletionAugmenter.transformationUsed, DEFAULT_CONSTRAINTS, pct,
          max (Int.fdiv tpe 4) 1⟩,
        ⟨SwapAugmenter.transformationUsed, DEFAULT_CONSTRAINTS, pct,
          max (Int.fdiv tpe 4) 1⟩,
        ⟨SynonymInsertionAugmenter.transformationUsed, DEFAULT_CONSTRAINTS, pct,
          max (Int.fdiv tpe 4) 1⟩⟩ := by
  by_cases h1 : 0 ≤ pct ∧ pct ≤ 1
  · by_cases h2 : 0 < tpe
    · refine ⟨h1, h2, ?_⟩
      rw [easyInit_eq_some pct tpe h1 h2] at h
      exact (Option.some_injective _ h).symm
    · unfold EasyDataAugmenter.init at h
      rw [if_pos h1, if_neg h2] at h
      cases h
  · unfold EasyDataAugmenter.init at h
    rw [if_neg h1] at h
    cases h

/-! ### Claims C1 and C2: construction-time validation -/

/-- Claim C1: for every recipe constructor, a `pct_words_to_swap` outside the
closed interval [0,1] is rejected at construction time and every value inside
[0,1] is accepted (with a valid output count): this holds for the shared
base-class constructor every ordinary recipe delegates to, with any
transformation and constraint list, and for the aggregate Easy recipe's own
constructor. -/
theorem claim_C1_pct_words_to_swap_validated (t : TransformationTag)
    (cs : List ConstraintTag) (pct : ℚ) (tpe : ℤ) (htpe : 0 < tpe) :
    ((Augmenter.init t cs pct tpe).isSome = true ↔ (0 ≤ pct ∧ pct ≤ 1))
    ∧ ((EasyDataAugmenter.init pct tpe).isSome = true ↔ (0 ≤ pct ∧ pct ≤ 1)) := by
  constructor
  · rw [Augmenter.init_isSome_iff]
    exact ⟨fun h => h.1, fun h => ⟨h, htpe⟩⟩
  · constructor
    · intro h
      obtain ⟨cfg, hcfg⟩ := Option.isSome_iff_exists.mp h
      exact (easyInit_inv pct tpe cfg hcfg).1
    · intro h
      rw [easyInit_eq_some pct tpe h htpe]
      rfl

theorem claim_C1_witness :
    (0:ℤ) < 3
    ∧ (((Augmenter.init WordNetAugmenter.transformationUsed DEFAULT_CONSTRAINTS
          1 3).isSome = true ↔ (0 ≤ (1 : ℚ) ∧ (1 : ℚ) ≤ 1))
      ∧ ((EasyDataAugmenter.init 1 3).isSome = true
          ↔ (0 ≤ (1 : ℚ) ∧ (1 : ℚ) ≤ 1))) :=
  ⟨by decide,
   claim_C1_pct_words_to_swap_validated WordNetAugmenter.transformationUsed
     DEFAULT_CONSTRAINTS 1 3 (by decide)⟩

/-- Claim C2: for every recipe constructor, a `transformations_per_example`
that is not positive is rejected at construction time and every positive value
is accepted (with a valid fraction of words to swap): again both for the shared
base-class constructor and for the aggregate Easy recipe's own constructor. -/
theorem claim_C2_transformations_per_example_validated (t : TransformationTag)
    (cs : List ConstraintTag) (pct : ℚ) (tpe : ℤ) (hpct : 0 ≤ pct ∧ pct ≤ 1) :
    ((Augmenter.init t cs pct tpe).isSome = true ↔ 0 < tpe)
    ∧ ((EasyDataAugmenter.init pct tpe).isSome = true ↔ 0 < tpe) := by
  constructor
  · rw [Augmenter.init_isSome_iff]
    exact ⟨fun h => h.2, fun h => ⟨hpct, h⟩⟩
  · constructor
    · intro h
      obtain ⟨cfg, hcfg⟩ := Option.isSome_iff_exists.mp h
      exact (easyInit_inv pct tpe cfg hcfg).2.1
    · intro h
      rw [easyInit_eq_some pct tpe hpct h]
      rfl

theorem claim_C2_witness :
    (0 ≤ (1 : ℚ) ∧ (1 : ℚ) ≤ 1)
    ∧ (((Augmenter.init DeletionAugmenter.transformationUsed DEFAULT_CONSTRAINTS
          1 5).isSome = true ↔ (0:ℤ) < 5)
      ∧ ((EasyDataAugmenter.init 1 5).isSome = true ↔ (0:ℤ) < 5)) :=
  ⟨by decide,
   claim_C2_transformations_per_example_validated DeletionAugmenter.transformationUsed
     DEFAULT_CONSTRAINTS 1 5 (by decide)⟩

/-! ### Claims C3, C4, C5: the aggregate recipe's augment -/

/-- Truncating a shuffled deduplicated list is duplicate-free, for any shuffle
that permutes its input. -/
theorem take_shuffle_dedup_nodup (shuffle : List Text → RngState → List Text × RngState)
    (hshuffle : ∀ l r, ((shuffle l r).1).Perm l) (l : List Text) (r : RngState) (n : Nat) :
    ((shuffle (pySetList l) r).1.take n).Nodup :=
  (List.take_sublist _ _).nodup ((hshuffle (pySetList l) r).symm.nodup (List.nodup_dedup l))

/-- Claim C3: for every input text and every valid configuration (and any
behavior of the four sub-recipes, and any shuffle that permutes its input),
the list returned by `EasyDataAugmenter.augment` has length at most
`transformations_per_example` and contains no two equal strings. -/
theorem claim_C3_easy_output_capped_and_duplicate_free
    (subAugment : AugmenterConfig → RngState → Text → List Text × RngState)
    (shuffle : List Text → RngState → List Text × RngState)
    (hshuffle : ∀ l r, ((shuffle l r).1).Perm l)
    (pct : ℚ) (tpe : ℤ) (cfg : EasyConfig) (rng : RngState) (text : Text)
    (hcfg : EasyDataAugmenter.init pct tpe = some cfg) :
    (((EasyDataAugmenter.augment subAugment shuffle cfg rng text).1.length : ℤ)
        ≤ cfg.transformations_per_example)
    ∧ (EasyDataAugmenter.augment subAugment shuffle cfg rng text).1.Nodup := by
  obtain ⟨h1, h2, hc⟩ := easyInit_inv pct tpe cfg hcfg
  constructor
  · have hlen : (EasyDataAugmenter.augment subAugment shuffle cfg rng text).1.length
        ≤ cfg.transformations_per_example.toNat := by
      unfold EasyDataAugmenter.augment
      exact List.length_take_le _ _
    have htpe : (0:ℤ) ≤ cfg.transformations_per_example := by
      rw [hc]
      exact le_of_lt h2
    calc ((EasyDataAugmenter.augment subAugment shuffle cfg rng text).1.length : ℤ)
        ≤ (cfg.transformations_per_example.toNat : ℤ) := by exact_mod_cast hlen
      _ = cfg.transformations_per_example := Int.toNat_of_nonneg htpe
  · unfold EasyDataAugmenter.augment
    exact take_shuffle_dedup_nodup shuffle hshuffle _ _ _

theorem claim_C3_witness :
    (((EasyDataAugmenter.augment (fun _ r t => ([t, t, "b"], r)) (fun l r => (l, r))
        ⟨1, 4, ⟨WordNetAugmenter.transformationUsed, DEFAULT_CONSTRAINTS, 1, 1⟩,
          ⟨DeletionAugmenter.transformationUsed, DEFAULT_CONSTRAINTS, 1, 1⟩,
          ⟨SwapAugmenter.transformationUsed, DEFAULT_CONSTRAINTS, 1, 1⟩,
          ⟨SynonymInsertionAugmenter.transformationUsed, DEFAULT_CONSTRAINTS, 1, 1⟩⟩
        0 "a").1.length : ℤ) ≤ (4:ℤ))
    ∧ (EasyDataAugmenter.augment (fun _ r t => ([t, t, "b"], r)) (fun l r => (l, r))
        ⟨1, 4, ⟨WordNetAugmenter.transformationUsed, DEFAULT_CONSTRAINTS, 1, 1⟩,
          ⟨DeletionAugmenter.transformationUsed, DEFAULT_CONSTRAINTS, 1, 1⟩,
          ⟨SwapAugmenter.transformationUsed, DEFAULT_CONSTRAINTS, 1, 1⟩,
          ⟨SynonymInsertionAugmenter.transformationUsed, DEFAULT_CONSTRAINTS, 1, 1⟩⟩
        0 "a").1.Nodup :=
  claim_C3_easy_output_capped_and_duplicate_free
    (fun _ r t => ([t, t, "b"], r)) (fun l r => (l, r))
    (fun l r => List.Perm.refl l) 1 4
    ⟨1, 4, ⟨WordNetAugmenter.transformationUsed, DEFAULT_CONSTRAINTS, 1, 1⟩,
      ⟨DeletionAugmenter.transformationUsed, DEFAULT_CONSTRAINTS, 1, 1⟩,
      ⟨SwapAugmenter.transformationUsed, DEFAULT_CONSTRAINTS, 1, 1⟩,
      ⟨SynonymInsertionAugmenter.transformationUsed, DEFAULT_CONSTRAINTS, 1, 1⟩⟩
    0 "a" (by decide)

/-- Claim C4: the Easy recipe constructs exactly four sub-recipes — WordNet
synonym replacement, deletion, swap, and synonym insertion — each configured
to emit at most `max(transformations_per_example // 4, 1)` variants, and its
`augment` equals the spec-side pipeline: union the four sub-recipes' outputs,
deduplicate, shuffle with the process-wide random source, truncate to
`transformations_per_example`. -/
theorem claim_C4_easy_composition (pct : ℚ) (tpe : ℤ) (cfg : EasyConfig)
    (hcfg : EasyDataAugmenter.init pct tpe = some cfg) :
    (cfg.synonym_replacement =
        ⟨.atomic .wordSwapWordNet, DEFAULT_CONSTRAINTS, pct, max (Int.fdiv tpe 4) 1⟩
      ∧ cfg.random_deletion =
        ⟨.atomic .wordDeletion, DEFAULT_CONSTRAINTS, pct, max (Int.fdiv tpe 4) 1⟩
      ∧ cfg.random_swap =
        ⟨.atomic .wordInnerSwapRandom, DEFAULT_CONSTRAINTS, pct, max (Int.fdiv tpe 4) 1⟩
      ∧ cfg.random_insertion =
        ⟨.atomic .wordInsertionRandomSynonym, DEFAULT_CONSTRAINTS, pct,
          max (Int.fdiv tpe 4) 1⟩)
    ∧ ∀ subAugment shuffle rng text,
        EasyDataAugmenter.augment subAugment shuffle cfg rng text
          = easyAugmentAsSpecified subAugment shuffle cfg rng text := by
  obtain ⟨h1, h2, hc⟩ := easyInit_inv pct tpe cfg hcfg
  subst hc
  refine ⟨⟨rfl, rfl, rfl, rfl⟩, ?_⟩
  intro subAugment shuffle rng text
  simp only [EasyDataAugmenter.augment, easyAugmentAsSpecified, runSubRecipes,
    pySetList, List.append_nil, List.append_assoc]

theorem claim_C4_witness :
    ((⟨1, 4, ⟨WordNetAugmenter.transformationUsed, DEFAULT_CONSTRAINTS, 1, 1⟩,
        ⟨DeletionAugmenter.transformationUsed, DEFAULT_CONSTRAINTS, 1, 1⟩,
        ⟨SwapAugmenter.transformationUsed, DEFAULT_CONSTRAINTS, 1, 1⟩,
        ⟨SynonymInsertionAugmenter.transformationUsed, DEFAULT_CONSTRAINTS, 1, 1⟩⟩ :
          EasyConfig).synonym_replacement =
        ⟨.atomic .wordSwapWordNet, DEFAULT_CONSTRAINTS, 1, max (Int.fdiv 4 4) 1⟩)
    ∧ (EasyDataAugmenter.augment (fun _ r t => ([t], r)) (fun l r => (l, r))
        ⟨1, 4, ⟨WordNetAugmenter.transformationUsed, DEFAULT_CONSTRAINTS, 1, 1⟩,
          ⟨DeletionAugmenter.transformationUsed, DEFAULT_CONSTRAINTS, 1, 1⟩,
          ⟨SwapAugmenter.transformationUsed, DEFAULT_CONSTRAINTS, 1, 1⟩,
          ⟨SynonymInsertionAugmenter.transformationUsed, DEFAULT_CONSTRAINTS, 1, 1⟩⟩
        0 "a"
      = easyAugmentAsSpecified (fun _ r t => ([t], r)) (fun l r => (l, r))
        ⟨1, 4, ⟨WordNetAugmenter.transformationUsed, DEFAULT_CONSTRAINTS, 1, 1⟩,
          ⟨DeletionAugmenter.transformationUsed, DEFAULT_CONSTRAINTS, 1, 1⟩,
          ⟨SwapAugmenter.transformationUsed, DEFAULT_CONSTRAINTS, 1, 1⟩,
          ⟨SynonymInsertionAugmenter.transformationUsed, DEFAULT_CONSTRAINTS, 1, 1⟩⟩
        0 "a") := by
  have h := claim_C4_easy_composition 1 4
    ⟨1, 4, ⟨WordNetAugmenter.transformationUsed, DEFAULT_CONSTRAINTS, 1, 1⟩,
      ⟨DeletionAugmenter.transformationUsed, DEFAULT_CONSTRAINTS, 1, 1⟩,
      ⟨SwapAugmenter.transformationUsed, DEFAULT_CONSTRAINTS, 1, 1⟩,
      ⟨SynonymInsertionAugmenter.transformationUsed, DEFAULT_CONSTRAINTS, 1, 1⟩⟩
    (by decide)
  exact ⟨h.1.1, h.2 (fun _ r t => ([t], r)) (fun l r => (l, r)) 0 "a"⟩

/-- Claim C5: for any fixed seed of the process-wide random source, two runs
of the aggregate recipe's `augment` on the same input text with the same
configuration (and the same external sub-recipe and shuffle behavior, both
pure functions of the threaded random-source state) return the same output
list in the same order. -/
theorem claim_C5_fixed_seed_reproducible
    (subAugment : AugmenterConfig → RngState → Text → List Text × RngState)
    (shuffle : List Text → RngState → List Text × RngState)
    (cfg : EasyConfig) (text : Text) (seed1 seed2 : RngState) (h : seed1 = seed2) :
    EasyDataAugmenter.augment subAugment shuffle cfg seed1 text
      = EasyDataAugmenter.augment subAugment shuffle cfg seed2 text := by
  rw [h]

theorem claim_C5_witness :
    EasyDataAugmenter.augment (fun _ r t => ([t], r)) (fun l r => (l.reverse, r))
      ⟨1, 4, ⟨WordNetAugmenter.transformationUsed, DEFAULT_CONSTRAINTS, 1, 1⟩,
        ⟨DeletionAugmenter.transformationUsed, DEFAULT_CONSTRAINTS, 1, 1⟩,
        ⟨SwapAugmenter.transformationUsed, DEFAULT_CONSTRAINTS, 1, 1⟩,
        ⟨SynonymInsertionAugmenter.transformationUsed, DEFAULT_CONSTRAINTS, 1, 1⟩⟩
      7 "a"
    = EasyDataAugmenter.augment (fun _ r t => ([t], r)) (fun l r => (l.reverse, r))
      ⟨1, 4, ⟨WordNetAugmenter.transformationUsed, DEFAULT_CONSTRAINTS, 1, 1⟩,
        ⟨DeletionAugmenter.transformationUsed, DEFAULT_CONSTRAINTS, 1, 1⟩,
        ⟨SwapAugmenter.transformationUsed, DEFAULT_CONSTRAINTS, 1, 1⟩,
        ⟨SynonymInsertionAugmenter.transformationUsed, DEFAULT_CONSTRAINTS, 1, 1⟩⟩
      7 "a" :=
  claim_C5_fixed_seed_reproducible (fun _ r t => ([t], r)) (fun l r => (l.reverse, r))
    ⟨1, 4, ⟨WordNetAugmenter.transformationUsed, DEFAULT_CONSTRAINTS, 1, 1⟩,
      ⟨DeletionAugmenter.transformationUsed, DEFAULT_CONSTRAINTS, 1, 1⟩,
      ⟨SwapAugmenter.transformationUsed, DEFAULT_CONSTRAINTS, 1, 1⟩,
      ⟨SynonymInsertionAugmenter.transformationUsed, DEFAULT_CONSTRAINTS, 1, 1⟩⟩
    "a" 7 7 rfl

/-! ### Claim C6: where resource-unavailable errors surface -/

/-- Claim C6 counterexample: with the named pretrained model unavailable,
constructing the CLARE recipe does NOT succeed — `from_pretrained` is called
inside `__init__` (source lines 215-216), so the resource-unavailable error
surfaces at construction, not at the first `augment` call. -/
theorem claim_C6_counterexample :
    CLAREAugmenter.init (fun _ => false) "distilroberta-base" "distilroberta-base" 1 4
      = Except.error "resource unavailable: distilroberta-base" := by rfl

/-- Claim C6 as amended: recipes whose transformations consume their external
resource lazily (WordNet synonym replacement, embedding-based swaps) still
construct successfully whatever the resource environment, and a missing
resource fails at the first `augment` call with a resource-unavailable error
propagated to the caller without retry or degradation; the CLARE recipe is
the exception forced by the counterexample — it loads its pretrained model
and tokenizer inside its constructor (source lines 215-216), so construction
succeeds exactly when both are available and a missing model fails
construction itself with the propagated resource-unavailable error. -/
theorem claim_C6_amended_resource_error_surfacing
    (available : String → Bool) (model tok : String) (pct : ℚ) (tpe : ℤ)
    (h1 : 0 ≤ pct ∧ pct ≤ 1) (h2 : 0 < tpe) :
    ((WordNetAugmenter.init pct tpe).isSome = true
      ∧ (EmbeddingAugmenter.init pct tpe).isSome = true)
    ∧ (∀ cfgW, WordNetAugmenter.init pct tpe = some cfgW →
        ∀ oracle transform text,
          (available "wordnet" = false →
            Augmenter.augmentWithResources available oracle transform cfgW text
              = Except.error ("resource unavailable: " ++ "wordnet"))
          ∧ (available "wordnet" = true →
            Augmenter.augmentWithResources available oracle transform cfgW text
              = Except.ok (Augmenter.augmentFiltered oracle transform cfgW text)))
    ∧ (∀ cfgE, EmbeddingAugmenter.init pct tpe = some cfgE →
        ∀ oracle transform text,
          available "embedding-table" = false →
          Augmenter.augmentWithResources available oracle transform cfgE text
            = Except.error ("resource unavailable: " ++ "embedding-table"))
    ∧ ((∃ cfg, CLAREAugmenter.init available model tok pct tpe = Except.ok cfg)
        ↔ (available model = true ∧ available tok = true))
    ∧ (available model = false →
        CLAREAugmenter.init available model tok pct tpe
          = Except.error ("resource unavailable: " ++ model)) := by
  refine ⟨⟨?_, ?_⟩, ?_, ?_, ?_, ?_⟩
  · unfold WordNetAugmenter.init
    rw [Augmenter.init_isSome_iff]
    exact ⟨h1, h2⟩
  · unfold EmbeddingAugmenter.init
    rw [Augmenter.init_isSome_iff]
    exact ⟨h1, h2⟩
  · intro cfgW hW oracle transform text
    unfold WordNetAugmenter.init at hW
    obtain ⟨_, _, hc⟩ := Augmenter.init_inv _ _ _ _ _ hW
    subst hc
    constructor
    · intro hna
      simp [Augmenter.augmentWithResources, TransformationTag.resourcesNeeded,
        AtomicTransformation.resourcesNeeded, WordNetAugmenter.transformationUsed,
        List.find?, hna]
    · intro ha
      simp [Augmenter.augmentWithResources, TransformationTag.resourcesNeeded,
        AtomicTransformation.resourcesNeeded, WordNetAugmenter.transformationUsed,
        List.find?, ha]
  · intro cfgE hE oracle transform text hna
    unfold EmbeddingAugmenter.init at hE
    obtain ⟨_, _, hc⟩ := Augmenter.init_inv _ _ _ _ _ hE
    subst hc
    simp [Augmenter.augmentWithResources, TransformationTag.resourcesNeeded,
      AtomicTransformation.resourcesNeeded, EmbeddingAugmenter.transformationUsed,
      List.find?, hna]
  · unfold CLAREAugmenter.init loadPretrained
    cases hm : available model <;> cases ht : available tok <;>
      simp [hm, ht, Augmenter.init_eq_some _ _ _ _ h1 h2]
  · intro hm
    unfold CLAREAugmenter.init loadPretrained
    simp [hm]

theorem claim_C6_amended_witness :
    (0 ≤ (1 : ℚ) ∧ (1 : ℚ) ≤ 1) ∧ (0:ℤ) < 2
    ∧ (((WordNetAugmenter.init 1 2).isSome = true
        ∧ (EmbeddingAugmenter.init 1 2).isSome = true)
      ∧ (∀ cfgW, WordNetAugmenter.init 1 2 = some cfgW →
          ∀ oracle transform text,
            ((fun (s : String) => s == "distilroberta-base") "wordnet" = false →
              Augmenter.augmentWithResources (fun s => s == "distilroberta-base")
                oracle transform cfgW text
                = Except.error ("resource unavailable: " ++ "wordnet"))
            ∧ ((fun (s : String) => s == "distilroberta-base") "wordnet" = true →
              Augmenter.augmentWithResources (fun s => s == "distilroberta-base")
                oracle transform cfgW text
                = Except.ok (Augmenter.augmentFiltered oracle transform cfgW text)))
      ∧ (∀ cfgE, EmbeddingAugmenter.init 1 2 = some cfgE →
          ∀ oracle transform text,
            (fun (s : String) => s == "distilroberta-base") "embedding-table" = false →
            Augmenter.augmentWithResources (fun s => s == "distilroberta-base")
              oracle transform cfgE text
              = Except.error ("resource unavailable: " ++ "embedding-table"))
      ∧ ((∃ cfg, CLAREAugmenter.init (fun s => s == "distilroberta-base")
            "distilroberta-base" "distilroberta-base" 1 2 = Except.ok cfg)
          ↔ ((fun (s : String) => s == "distilroberta-base") "distilroberta-base" = true
              ∧ (fun (s : String) => s == "distilroberta-base") "distilroberta-base"
                  = true))
      ∧ ((fun (s : String) => s == "distilroberta-base") "distilroberta-base" = false →
          CLAREAugmenter.init (fun s => s == "distilroberta-base")
            "distilroberta-base" "distilroberta-base" 1 2
            = Except.error ("resource unavailable: " ++ "distilroberta-base"))) :=
  ⟨by decide, by decide,
   claim_C6_amended_resource_error_surfacing (fun s => s == "distilroberta-base")
     "distilroberta-base" "distilroberta-base" 1 2 (by decide) (by decide)⟩

/-! ### Claim C7: the constraint chain is a conjunction, invariant under
reordering -/

/-- Claim C7: for every constraint list, original text and candidate text, the
chain's acceptance decision equals the conjunction of the individual
constraints' decisions, and any reordering of the list yields the same
decision — order never changes which candidates are accepted. -/
theorem claim_C7_constraint_chain_conjunction_order_invariant
    (oracle : ConstraintTag → Text → Text → Bool) (cs cs' : List ConstraintTag)
    (original candidate : Text) (hperm : cs.Perm cs') :
    (checkConstraints oracle cs original candidate = true
      ↔ ∀ k ∈ cs, postCheck oracle k original candidate = true)
    ∧ checkConstraints oracle cs original candidate
        = checkConstraints oracle cs' original candidate := by
  have h1 : checkConstraints oracle cs original candidate = true
      ↔ ∀ k ∈ cs, postCheck oracle k original candidate = true := by
    simp [checkConstraints, List.all_eq_true]
  have h2 : checkConstraints oracle cs' original candidate = true
      ↔ ∀ k ∈ cs', postCheck oracle k original candidate = true := by
    simp [checkConstraints, List.all_eq_true]
  have hiff : (∀ k ∈ cs, postCheck oracle k original candidate = true)
      ↔ ∀ k ∈ cs', postCheck oracle k original candidate = true :=
    ⟨fun h k hk => h k (hperm.mem_iff.mpr hk), fun h k hk => h k (hperm.mem_iff.mp hk)⟩
  exact ⟨h1, Bool.eq_iff_iff.mpr (h1.trans (hiff.trans h2.symm))⟩

theorem claim_C7_witness :
    ((checkConstraints (fun _ _ _ => true) (PruthiAugmenter.constraintsUsed 1) "the cat" "teh cat" = true
      ↔ ∀ k ∈ PruthiAugmenter.constraintsUsed 1,
          postCheck (fun _ _ _ => true) k "the cat" "teh cat" = true)
    ∧ checkConstraints (fun _ _ _ => true) (PruthiAugmenter.constraintsUsed 1) "the cat" "teh cat"
        = checkConstraints (fun _ _ _ => true)
            ((PruthiAugmenter.constraintsUsed 1).reverse) "the cat" "teh cat") :=
  claim_C7_constraint_chain_conjunction_order_invariant (fun _ _ _ => true)
    (PruthiAugmenter.constraintsUsed 1) ((PruthiAugmenter.constraintsUsed 1).reverse)
    "the cat" "teh cat" (List.reverse_perm _).symm

/-! ### Claim C8: DeepWordBug candidates stay within edit distance 30 -/

/-- Claim C8: every candidate returned by the DeepWordBug recipe's augment —
whatever its transformation produces and however the external model-based
constraints decide — has character-level Levenshtein distance at most 30 from
the original, because the recipe's constraint list carries
`LevenshteinEditDistance(30)` and the chain is a conjunction. -/
theorem claim_C8_deepwordbug_edit_distance_bounded
    (oracle : ConstraintTag → Text → Text → Bool) (transform : Text → List Text)
    (useAllTransformations : Bool) (pct : ℚ) (tpe : ℤ) (cfg : AugmenterConfig)
    (text candidate : Text)
    (hcfg : DeepWordBugAugmenter.init useAllTransformations pct tpe = some cfg)
    (hmem : candidate ∈ Augmenter.augmentFiltered oracle transform cfg text) :
    levenshteinDist text.data candidate.data ≤ 30 := by
  unfold DeepWordBugAugmenter.init at hcfg
  obtain ⟨h1, h2, hc⟩ := Augmenter.init_inv _ _ _ _ _ hcfg
  subst hc
  unfold Augmenter.augmentFiltered at hmem
  have hmem' := List.mem_filter.mp (List.mem_dedup.mp (List.mem_of_mem_take hmem))
  have hall := hmem'.2
  simp [checkConstraints, DeepWordBugAugmenter.constraintsUsed, postCheck] at hall
  exact hall

theorem claim_C8_witness :
    DeepWordBugAugmenter.init true 1 1
      = some ⟨DeepWordBugAugmenter.transformationUsed true,
          DeepWordBugAugmenter.constraintsUsed, 1, 1⟩
    ∧ "ab" ∈ Augmenter.augmentFiltered (fun _ _ _ => true) (fun t => [t ++ "b"])
        ⟨DeepWordBugAugmenter.transformationUsed true,
          DeepWordBugAugmenter.constraintsUsed, 1, 1⟩ "a"
    ∧ levenshteinDist "a".data "ab".data ≤ 30 :=
  ⟨by decide, by decide,
   claim_C8_deepwordbug_edit_distance_bounded (fun _ _ _ => true) (fun t => [t ++ "b"])
     true 1 1
     ⟨DeepWordBugAugmenter.transformationUsed true,
       DeepWordBugAugmenter.constraintsUsed, 1, 1⟩
     "a" "ab" (by decide) (by decide)⟩

/-! ### Claims C9 and C10: which constraints each recipe applies -/

/-- Recognizes the stopword-exclusion constraint (with any stopword set). -/
def ConstraintTag.isStopwordExclusion : ConstraintTag → Bool
  | ConstraintTag.stopwordModification _ => true
  | _ => false

/-- Recognizes the repeat-modification constraint. -/
def ConstraintTag.isRepeatBan : ConstraintTag → Bool
  | ConstraintTag.repeatModification => true
  | _ => false

/-- The constraint lists of every recipe in the catalog other than the
sentence-level back-translation recipe (the aggregate Easy recipe has no
constraint list of its own; its four sub-recipes appear here through their
classes).  `PruthiAugmenter` is taken at its default `max_num_word_swaps=1`. -/
def otherRecipeConstraintLists : List (List ConstraintTag) :=
  [WordNetAugmenter.constraintsUsed, DeletionAugmenter.constraintsUsed,
   SwapAugmenter.constraintsUsed, SynonymInsertionAugmenter.constraintsUsed,
   EmbeddingAugmenter.constraintsUsed, CharSwapAugmenter.constraintsUsed,
   CheckListAugmenter.constraintsUsed, CLAREAugmenter.constraintsUsed,
   PruthiAugmenter.constraintsUsed 1, TextBuggerAugmenter.constraintsUsed,
   TextFoolerAugmenter.constraintsUsed, DeepWordBugAugmenter.constraintsUsed]

/-- The constraint lists of every word-level recipe in the catalog other than
the checklist recipe (back-translation is sentence-level and excluded; the
aggregate Easy recipe is represented by its four sub-recipe classes). -/
def wordLevelConstraintListsExceptCheckList : List (List ConstraintTag) :=
  [WordNetAugmenter.constraintsUsed, DeletionAugmenter.constraintsUsed,
   SwapAugmenter.constraintsUsed, SynonymInsertionAugmenter.constraintsUsed,
   EmbeddingAugmenter.constraintsUsed, CharSwapAugmenter.constraintsUsed,
   CLAREAugmenter.constraintsUsed, PruthiAugmenter.constraintsUsed 1,
   TextBuggerAugmenter.constraintsUsed, TextFoolerAugmenter.constraintsUsed,
   DeepWordBugAugmenter.constraintsUsed]

/-- Claim C9: the back-translation recipe passes only its transformation to
the Augmenter — its constraint list is empty, so its (empty) chain accepts
every candidate, and in particular neither the repeat-modification nor the
stopword-exclusion constraint filters its candidates; every other recipe in
the catalog passes a non-empty constraint list. -/
theorem claim_C9_backtranslation_has_no_constraints
    (pct : ℚ) (tpe : ℤ) (cfg : AugmenterConfig)
    (hcfg : BackTranslationAugmenter.init pct tpe = some cfg) :
    cfg.constraints = []
    ∧ (∀ oracle original candidate,
        checkConstraints oracle cfg.constraints original candidate = true)
    ∧ cfg.constraints.any ConstraintTag.isRepeatBan = false
    ∧ cfg.constraints.any ConstraintTag.isStopwordExclusion = false
    ∧ ∀ cs ∈ otherRecipeConstraintLists, cs ≠ [] := by
  unfold BackTranslationAugmenter.init at hcfg
  obtain ⟨h1, h2, hc⟩ := Augmenter.init_inv _ _ _ _ _ hcfg
  subst hc
  exact ⟨rfl, fun _ _ _ => rfl, rfl, rfl, by decide⟩

theorem claim_C9_witness :
    BackTranslationAugmenter.init 1 4
      = some ⟨BackTranslationAugmenter.transformationUsed,
          BackTranslationAugmenter.constraintsUsed, 1, 4⟩
    ∧ ((⟨BackTranslationAugmenter.transformationUsed,
          BackTranslationAugmenter.constraintsUsed, 1, 4⟩ :
          AugmenterConfig).constraints = []
      ∧ (∀ oracle original candidate,
          checkConstraints oracle
            (⟨BackTranslationAugmenter.transformationUsed,
              BackTranslationAugmenter.constraintsUsed, 1, 4⟩ :
              AugmenterConfig).constraints original candidate = true)
      ∧ (⟨BackTranslationAugmenter.transformationUsed,
          BackTranslationAugmenter.constraintsUsed, 1, 4⟩ :
          AugmenterConfig).constraints.any ConstraintTag.isRepeatBan = false
      ∧ (⟨BackTranslationAugmenter.transformationUsed,
          BackTranslationAugmenter.constraintsUsed, 1, 4⟩ :
          AugmenterConfig).constraints.any ConstraintTag.isStopwordExclusion = false
      ∧ ∀ cs ∈ otherRecipeConstraintLists, cs ≠ []) :=
  ⟨by decide,
   claim_C9_backtranslation_has_no_constraints 1 4
     ⟨BackTranslationAugmenter.transformationUsed,
       BackTranslationAugmenter.constraintsUsed, 1, 4⟩ (by decide)⟩

/-- Claim C10: the checklist recipe is constructed with exactly one
constraint — the repeat-modification constraint, which is the first element of
`DEFAULT_CONSTRAINTS` — and in particular applies no stopword-exclusion
constraint, while every other word-level recipe in the catalog does apply
one. -/
theorem claim_C10_checklist_only_repeat_modification
    (pct : ℚ) (tpe : ℤ) (cfg : AugmenterConfig)
    (hcfg : CheckListAugmenter.init pct tpe = some cfg) :
    cfg.constraints = [ConstraintTag.repeatModification]
    ∧ DEFAULT_CONSTRAINTS.head? = some ConstraintTag.repeatModification
    ∧ cfg.constraints.any ConstraintTag.isStopwordExclusion = false
    ∧ ∀ cs ∈ wordLevelConstraintListsExceptCheckList,
        cs.any ConstraintTag.isStopwordExclusion = true := by
  unfold CheckListAugmenter.init at hcfg
  obtain ⟨h1, h2, hc⟩ := Augmenter.init_inv _ _ _ _ _ hcfg
  subst hc
  exact ⟨rfl, rfl, rfl, by decide⟩

theorem claim_C10_witness :
    CheckListAugmenter.init 1 2
      = some ⟨CheckListAugmenter.transformationUsed,
          CheckListAugmenter.constraintsUsed, 1, 2⟩
    ∧ ((⟨CheckListAugmenter.transformationUsed,
          CheckListAugmenter.constraintsUsed, 1, 2⟩ :
          AugmenterConfig).constraints = [ConstraintTag.repeatModification]
      ∧ DEFAULT_CONSTRAINTS.head? = some ConstraintTag.repeatModification
      ∧ (⟨CheckListAugmenter.transformationUsed,
          CheckListAugmenter.constraintsUsed, 1, 2⟩ :
          AugmenterConfig).constraints.any ConstraintTag.isStopwordExclusion = false
      ∧ ∀ cs ∈ wordLevelConstraintListsExceptCheckList,
          cs.any ConstraintTag.isStopwordExclusion = true) :=
  ⟨by decide,
   claim_C10_checklist_only_repeat_modification 1 2
     ⟨CheckListAugmenter.transformationUsed,
       CheckListAugmenter.constraintsUsed, 1, 2⟩ (by decide)⟩
